import Mathlib

/-!
Verification of the Databricks MCP server (`src/main.py`) against its
natural-language specification.

Shallow embedding: Python runtime values appearing in SQL result rows become
an inductive `Value`; Python exceptions become `Except String`; the external
SQL engine (connect / cursor / execute / fetch) becomes an explicit `Engine`
record supplied as a parameter; the observable interactions with the engine
(connection opened, query executed, cursor/connection closed) are recorded in
an event trace returned alongside each result, so that resource-discipline
and "no engine contact" properties are statable.  An `Except.error` at the
level of `get_databricks_connection` / `get_workspace_client` models a raised
Python exception; each MCP entry point converts any such error into an
error mapping, mirroring its `try`/`except` block.
-/

/-- A Python runtime value as it may appear in a SQL result row. -/
inductive Value where
  | null
  | str (s : String)
  | int (n : Int)
  | bool (b : Bool)
deriving Repr, DecidableEq

/-- Python truthiness for `Value` (`None`, `""`, `0`, `False` are falsy). -/
def Value.truthy : Value → Bool
  | .null => false
  | .str s => s != ""
  | .int n => n != 0
  | .bool b => b

/-- Python `str.startswith(pre)` modelled on character lists. -/
def pyStartsWith (s pre : String) : Bool :=
  pre.data.isPrefixOf s.data

/-- Python tuple indexing `row[i]`: raises `IndexError` when out of range. -/
def pyGet (row : List Value) (i : Nat) : Except String Value :=
  match row.get? i with
  | some v => .ok v
  | none => .error "IndexError: tuple index out of range"

/-- Python `s.replace("https://", "")` restricted to the fixed pattern used
in `get_databricks_connection`: removes every non-overlapping occurrence of
`https://`, scanning left to right (not only a leading prefix). -/
def stripHttpsAll : List Char → List Char
  | 'h' :: 't' :: 't' :: 'p' :: 's' :: ':' :: '/' :: '/' :: rest => stripHttpsAll rest
  | c :: cs => c :: stripHttpsAll cs
  | [] => []

/-- `DATABRICKS_HOST.replace("https://", "")` from `main.py` line 31. -/
def pyReplaceHttps (s : String) : String :=
  ⟨stripHttpsAll s.data⟩

/-- Python truthiness of an optional environment-variable string
(`None` and `""` are falsy). -/
def envTruthy : Option String → Bool
  | none => false
  | some s => s != ""

/-- Python `a or b` on optional strings: `a` when truthy, else `b`. -/
def pyOr (a b : Option String) : Option String :=
  if envTruthy a then a else b

/-- The five configuration values read from the process environment:
`DATABRICKS_HOST`, `DATABRICKS_TOKEN`, `DATABRICKS_HTTP_PATH`,
`DATABRICKS_CATALOG`, `DATABRICKS_SCHEMA` (`main.py` lines 15-19). -/
structure Config where
  host : Option String
  token : Option String
  httpPath : Option String
  catalog : Option String
  schema : Option String
deriving Repr, DecidableEq

/-- What the engine hands back for one executed statement:
`description` is the cursor's result-set metadata (`None` when the statement
returns no result set; otherwise the column names, first element of each
7-tuple), `rows` is what `fetchall`/`fetchmany` draws from. -/
structure EngineResult where
  description : Option (List String)
  rows : List (List Value)
deriving Repr, DecidableEq

/-- The external SQL engine: `connect` models `sql.connect` (which may raise),
`run` models `cursor.execute` followed by fetching (either may raise; both
faults surface at the same `try`/`except`, so they are folded together). -/
structure Engine where
  connect : Except String Unit
  run : String → Except String EngineResult

deriving instance DecidableEq for Except

/-- Observable interactions with the SQL engine during one call. -/
inductive Event where
  | connect (hostname : String)
  | execute (query : String)
  | closeCursor
  | closeConn
deriving Repr, DecidableEq

/-- Error message raised by `get_databricks_connection` (`main.py` 25-28). -/
def connMissingMsg : String :=
  "Missing required environment variables: DATABRICKS_HOST, DATABRICKS_TOKEN, and DATABRICKS_HTTP_PATH must be set"

/-- Error message raised by `get_workspace_client` (`main.py` 40-43). -/
def wsMissingMsg : String :=
  "Missing required environment variables: DATABRICKS_HOST and DATABRICKS_TOKEN must be set"

/-- Error mapping message returned by `get_table_schema` / `list_tables` when
catalog or schema is missing (`main.py` 70-71, 194-195). -/
def catalogSchemaMissingMsg : String :=
  "Catalog and schema must be provided either as parameters or via DATABRICKS_CATALOG and DATABRICKS_SCHEMA environment variables"

/-- `get_databricks_connection` (`main.py` 22-34).  Returns the raised
exception (`Except.error`) or the bare hostname passed to `sql.connect`,
together with the engine-interaction trace of the construction. -/
def get_databricks_connection (cfg : Config) (eng : Engine) :
    Except String String × List Event :=
  if !(envTruthy cfg.host && envTruthy cfg.token && envTruthy cfg.httpPath) then
    (.error connMissingMsg, [])
  else
    match eng.connect with
    | .ok _ =>
      (.ok (pyReplaceHttps (cfg.host.getD "")),
       [.connect (pyReplaceHttps (cfg.host.getD ""))])
    | .error e => (.error e, [])

/-- `get_workspace_client` (`main.py` 37-48).  Returns the raised exception
or the (host, token) pair passed to `WorkspaceClient` (host unnormalized). -/
def get_workspace_client (cfg : Config) : Except String (String × String) :=
  if !(envTruthy cfg.host && envTruthy cfg.token) then
    .error wsMissingMsg
  else
    .ok (cfg.host.getD "", cfg.token.getD "")

/-- One element of the `columns` list built by `get_table_schema`:
`{"name": row[0], "type": row[1], "comment": row[2] if len(row) > 2 else None}`.
`name` is a `String` because the guard `row[0].startswith` has succeeded. -/
structure Column where
  name : String
  type : Value
  comment : Value
deriving Repr, DecidableEq

/-- One iteration of the parsing loop of `get_table_schema` (`main.py` 88-95):
`if row[0] and not row[0].startswith("#")` then append
`{name, type, comment}`; `none` means the row was skipped. -/
def parseSchemaRow (row : List Value) : Except String (Option Column) := do
  let v0 ← pyGet row 0
  if v0.truthy then
    match v0 with
    | .str s =>
      if pyStartsWith s "#" then
        return none
      else
        let ty ← pyGet row 1
        return some ⟨s, ty, row.getD 2 .null⟩
    | _ => .error "AttributeError: object has no attribute startswith"
  else
    return none

/-- The whole parsing loop of `get_table_schema` over the fetched rows. -/
def parseSchemaRows : List (List Value) → Except String (List Column)
  | [] => .ok []
  | r :: rs => do
    let c ← parseSchemaRow r
    let cs ← parseSchemaRows rs
    match c with
    | some col => .ok (col :: cs)
    | none => .ok cs

/-- Result of `get_table_schema`: the success mapping (`main.py` 100-106),
the missing-catalog/schema error mapping which echoes only the table
(`main.py` 69-73), or the `except` error mapping which echoes the resolved
catalog, schema and table (`main.py` 109-114). -/
inductive SchemaResult where
  | ok (catalog schema table fullName : String) (columns : List Column)
  | errMissing (msg : String) (table : String)
  | errCaught (msg : String) (catalog schema table : String)
deriving Repr, DecidableEq

/-- `full_table_name = f"{catalog}.{schema}.{table}"` (`main.py` 80). -/
def fullTableName (cat sch table : String) : String :=
  cat ++ "." ++ sch ++ "." ++ table

/-- The `DESCRIBE TABLE` statement issued by `get_table_schema` (`main.py` 81). -/
def describeQuery (cat sch table : String) : String :=
  "DESCRIBE TABLE " ++ fullTableName cat sch table

/-- The resolved catalog value, its `getD ""` never hit on the paths where it
is used (the missing check has ruled `none` out). -/
def resolvedCat (cfg : Config) (catalog : Option String) : String :=
  (pyOr catalog cfg.catalog).getD ""

/-- The resolved schema value, as `resolvedCat`. -/
def resolvedSch (cfg : Config) (schema : Option String) : String :=
  (pyOr schema cfg.schema).getD ""

/-- `get_table_schema(table, catalog, schema)` (`main.py` 52-114), with the
configuration and engine explicit and the engine-interaction trace returned. -/
def get_table_schema (cfg : Config) (eng : Engine) (table : String)
    (catalog schema : Option String) : SchemaResult × List Event :=
  if !(envTruthy (pyOr catalog cfg.catalog)) || !(envTruthy (pyOr schema cfg.schema)) then
    (.errMissing catalogSchemaMissingMsg table, [])
  else
    match get_databricks_connection cfg eng with
    | (.error e, tr) =>
      (.errCaught e (resolvedCat cfg catalog) (resolvedSch cfg schema) table, tr)
    | (.ok _, tr) =>
      match eng.run (describeQuery (resolvedCat cfg catalog) (resolvedSch cfg schema) table) with
      | .error e =>
        (.errCaught e (resolvedCat cfg catalog) (resolvedSch cfg schema) table,
         tr ++ [.execute (describeQuery (resolvedCat cfg catalog) (resolvedSch cfg schema) table)])
      | .ok res =>
        match parseSchemaRows res.rows with
        | .error e =>
          (.errCaught e (resolvedCat cfg catalog) (resolvedSch cfg schema) table,
           tr ++ [.execute (describeQuery (resolvedCat cfg catalog) (resolvedSch cfg schema) table)])
        | .ok cols =>
          (.ok (resolvedCat cfg catalog) (resolvedSch cfg schema) table
            (fullTableName (resolvedCat cfg catalog) (resolvedSch cfg schema) table) cols,
           tr ++ [.execute (describeQuery (resolvedCat cfg catalog) (resolvedSch cfg schema) table),
                  .closeCursor, .closeConn])

/-- A Python dict modelled as an association list in insertion order;
assignment `d[k] = v` updates an existing key in place, else appends. -/
def dictInsert (d : List (String × Value)) (k : String) (v : Value) :
    List (String × Value) :=
  if d.any (fun p => p.1 == k) then
    d.map (fun p => if p.1 == k then (k, v) else p)
  else
    d ++ [(k, v)]

/-- The inner loop of `execute_sql_query` (`main.py` 153-156):
`for i, col in enumerate(columns): row_dict[col] = row[i]`; `row[i]` may
raise `IndexError` when the row is shorter than the column list. -/
def buildRowDictAux (row : List Value) :
    Nat → List String → List (String × Value) →
    Except String (List (String × Value))
  | _, [], d => .ok d
  | i, c :: cs, d =>
    match row.get? i with
    | none => .error "IndexError: tuple index out of range"
    | some v => buildRowDictAux row (i + 1) cs (dictInsert d c v)

/-- Convert one fetched row to a mapping keyed by column name. -/
def buildRowDict (cols : List String) (row : List Value) :
    Except String (List (String × Value)) :=
  buildRowDictAux row 0 cols []

/-- The outer conversion loop of `execute_sql_query` (`main.py` 151-156). -/
def buildRows (cols : List String) :
    List (List Value) → Except String (List (List (String × Value)))
  | [] => .ok []
  | r :: rs => do
    let d ← buildRowDict cols r
    let ds ← buildRows cols rs
    .ok (d :: ds)

/-- `columns = [desc[0] for desc in cursor.description] if cursor.description
else []` (`main.py` 145): `None` and the empty metadata list both yield `[]`. -/
def pyColumns : Option (List String) → List String
  | none => []
  | some ds => ds

/-- Result of `execute_sql_query`: the success mapping (`main.py` 161-167)
or the `except` error mapping echoing the query (`main.py` 170-173). -/
inductive QueryResult where
  | ok (query : String) (columns : List String)
      (rows : List (List (String × Value))) (rowCount : Nat) (truncated : Bool)
  | err (msg : String) (query : String)
deriving Repr, DecidableEq

/-- `execute_sql_query(query, max_rows)` (`main.py` 118-173).
`cursor.fetchmany(max_rows)` is the engine-side cap: it draws at most
`max_rows` rows from the result, modelled as `List.take`. -/
def execute_sql_query (cfg : Config) (eng : Engine) (query : String)
    (maxRows : Nat) : QueryResult × List Event :=
  match get_databricks_connection cfg eng with
  | (.error e, tr) => (.err e query, tr)
  | (.ok _, tr) =>
    match eng.run query with
    | .error e => (.err e query, tr ++ [.execute query])
    | .ok res =>
      match buildRows (pyColumns res.description) (res.rows.take maxRows) with
      | .error e => (.err e query, tr ++ [.execute query])
      | .ok rows =>
        (.ok query (pyColumns res.description) rows rows.length
          (decide (maxRows ≤ rows.length)),
         tr ++ [.execute query, .closeCursor, .closeConn])

/-- One element of the `tables` list built by `list_tables` (`main.py`
210-213): `{"name": row[1], "is_temporary": row[2] if len(row) > 2 else
False}`. -/
structure TableInfo where
  name : Value
  isTemporary : Value
deriving Repr, DecidableEq

/-- The parsing loop of `list_tables` (`main.py` 209-214): `row[1]` may
raise `IndexError`; `is_temporary` defaults to `False`. -/
def parseTableRows : List (List Value) → Except String (List TableInfo)
  | [] => .ok []
  | r :: rs => do
    let name ← pyGet r 1
    let rest ← parseTableRows rs
    .ok (⟨name, r.getD 2 (.bool false)⟩ :: rest)

/-- Result of `list_tables`: the success mapping (`main.py` 219-225), the
missing-catalog/schema error mapping which echoes nothing (`main.py`
193-196), or the `except` error mapping echoing catalog and schema
(`main.py` 228-232). -/
inductive ListTablesResult where
  | ok (catalog schema : String) (tables : List TableInfo)
      (tableCount : Nat) (usageHint : String)
  | errMissing (msg : String)
  | errCaught (msg : String) (catalog schema : String)
deriving Repr, DecidableEq

/-- The `SHOW TABLES` statement issued by `list_tables` (`main.py` 203). -/
def showTablesQuery (cat sch : String) : String :=
  "SHOW TABLES IN " ++ cat ++ "." ++ sch

/-- The `usage_hint` string of `list_tables` (`main.py` 224). -/
def usageHint (cat sch : String) : String :=
  "To query these tables, use the full name: " ++ cat ++ "." ++ sch ++ ".<table_name>"

/-- `list_tables(catalog, schema)` (`main.py` 177-232). -/
def list_tables (cfg : Config) (eng : Engine)
    (catalog schema : Option String) : ListTablesResult × List Event :=
  if !(envTruthy (pyOr catalog cfg.catalog)) || !(envTruthy (pyOr schema cfg.schema)) then
    (.errMissing catalogSchemaMissingMsg, [])
  else
    match get_databricks_connection cfg eng with
    | (.error e, tr) =>
      (.errCaught e (resolvedCat cfg catalog) (resolvedSch cfg schema), tr)
    | (.ok _, tr) =>
      match eng.run (showTablesQuery (resolvedCat cfg catalog) (resolvedSch cfg schema)) with
      | .error e =>
        (.errCaught e (resolvedCat cfg catalog) (resolvedSch cfg schema),
         tr ++ [.execute (showTablesQuery (resolvedCat cfg catalog) (resolvedSch cfg schema))])
      | .ok res =>
        match parseTableRows res.rows with
        | .error e =>
          (.errCaught e (resolvedCat cfg catalog) (resolvedSch cfg schema),
           tr ++ [.execute (showTablesQuery (resolvedCat cfg catalog) (resolvedSch cfg schema))])
        | .ok tables =>
          (.ok (resolvedCat cfg catalog) (resolvedSch cfg schema) tables tables.length
            (usageHint (resolvedCat cfg catalog) (resolvedSch cfg schema)),
           tr ++ [.execute (showTablesQuery (resolvedCat cfg catalog) (resolvedSch cfg schema)),
                  .closeCursor, .closeConn])

/-- Success/error discrimination for `SchemaResult`. -/
def SchemaResult.isOk : SchemaResult → Bool
  | .ok .. => true
  | _ => false

/-- The `error` field carried by a `SchemaResult`, when present. -/
def SchemaResult.errorMsg : SchemaResult → Option String
  | .ok .. => none
  | .errMissing m _ => some m
  | .errCaught m _ _ _ => some m

/-- Success/error discrimination for `QueryResult`. -/
def QueryResult.isOk : QueryResult → Bool
  | .ok .. => true
  | _ => false

/-- The `error` field carried by a `QueryResult`, when present. -/
def QueryResult.errorMsg : QueryResult → Option String
  | .ok .. => none
  | .err m _ => some m

/-- Success/error discrimination for `ListTablesResult`. -/
def ListTablesResult.isOk : ListTablesResult → Bool
  | .ok .. => true
  | _ => false

/-- The `error` field carried by a `ListTablesResult`, when present. -/
def ListTablesResult.errorMsg : ListTablesResult → Option String
  | .ok .. => none
  | .errMissing m => some m
  | .errCaught m _ _ => some m

/-- Spec-side reading of the column filter: keep a row exactly when its
first field is a nonempty string not starting with `#`, as
`{name, type, comment}`. -/
def specColumn (row : List Value) : Option Column :=
  match row.get? 0 with
  | some (.str s) =>
    if s != "" && !(pyStartsWith s "#") then
      some ⟨s, row.getD 1 .null, row.getD 2 .null⟩
    else none
  | _ => none

/-- Spec-side reading of the whole `columns` computation. -/
def specColumns (rows : List (List Value)) : List Column :=
  rows.filterMap specColumn

/-- Spec-side reading of C8's host normalization: strip only a LEADING
`https://`, leaving the host otherwise unchanged. -/
def specStripLeadingHttps (s : String) : String :=
  if pyStartsWith s "https://" then ⟨s.data.drop 8⟩ else s

/-- A fully-populated configuration. -/
def cfgFull : Config :=
  ⟨some "https://x.com", some "tok", some "/sql/1", some "main", some "default"⟩

/-- Configuration with no catalog anywhere. -/
def cfgNoCat : Config :=
  ⟨some "https://x.com", some "tok", some "/sql/1", none, some "default"⟩

/-- Configuration with the access token unset. -/
def cfgNoToken : Config :=
  ⟨some "https://x.com", none, some "/sql/1", some "main", some "default"⟩

/-- Configuration whose host contains `https://` in the middle but not as a
leading prefix. -/
def cfgHostMid : Config :=
  ⟨some "ahttps://b", some "tok", some "/sql/1", none, none⟩

/-- An engine that is never actually reached. -/
def engUnused : Engine := ⟨.ok (), fun _ => .error "unreachable"⟩

/-- An engine answering a `DESCRIBE TABLE` query with the spec's scenario
rows: two real columns and one `#`-marker footer row. -/
def engSchema : Engine :=
  ⟨.ok (), fun _ => .ok ⟨none,
    [[.str "id", .str "bigint", .null],
     [.str "name", .str "string", .null],
     [.str "# Partitioning", .str "", .str ""]]⟩⟩

/-- An engine answering any query with one column `a` and three rows. -/
def engRows3 : Engine :=
  ⟨.ok (), fun _ => .ok ⟨some ["a"], [[.int 1], [.int 2], [.int 3]]⟩⟩

/-- An engine answering any query with one column `a` and zero rows. -/
def engEmpty : Engine := ⟨.ok (), fun _ => .ok ⟨some ["a"], []⟩⟩

/-- An engine whose `execute` raises. -/
def engExecFails : Engine := ⟨.ok (), fun _ => .error "PERMISSION_DENIED"⟩

/-- An engine answering a `DESCRIBE TABLE` query with a single row whose
column-name field is the empty string. -/
def engEmptyName : Engine :=
  ⟨.ok (), fun _ => .ok ⟨none, [[.str "", .str "int", .null]]⟩⟩

theorem exbind_ok (a : α) (f : α → Except String β) :
    (Except.ok a >>= f) = f a := rfl

theorem exbind_error (e : String) (f : α → Except String β) :
    ((Except.error e : Except String α) >>= f) = .error e := rfl

theorem expure (a : α) : (pure a : Except String α) = .ok a := rfl

theorem parseSchemaRow_eq_spec (r : List Value) (oc : Option Column)
    (h : parseSchemaRow r = .ok oc) : oc = specColumn r := by
  match r with
  | [] => simp [parseSchemaRow, pyGet, exbind_error] at h
  | v :: rest =>
    cases v with
    | null =>
      simp [parseSchemaRow, pyGet, Value.truthy, exbind_ok, expure] at h
      simp [specColumn, h.symm]
    | bool b =>
      cases b with
      | false =>
        simp [parseSchemaRow, pyGet, Value.truthy, exbind_ok, expure] at h
        simp [specColumn, h.symm]
      | true =>
        simp [parseSchemaRow, pyGet, Value.truthy, exbind_ok, expure] at h
    | int n =>
      by_cases hn : n = 0
      · simp [parseSchemaRow, pyGet, Value.truthy, hn, exbind_ok, expure] at h
        simp [specColumn, h.symm]
      · simp [parseSchemaRow, pyGet, Value.truthy, hn, exbind_ok, expure] at h
    | str s =>
      by_cases hs : s = ""
      · simp [parseSchemaRow, pyGet, Value.truthy, hs, exbind_ok, expure] at h
        simp [specColumn, hs, h.symm]
      · by_cases hh : pyStartsWith s "#" = true
        · simp [parseSchemaRow, pyGet, Value.truthy, hs, hh, exbind_ok, expure] at h
          simp [specColumn, hs, hh, h.symm]
        · cases rest with
          | nil =>
            simp [parseSchemaRow, pyGet, Value.truthy, hs, hh, exbind_ok,
              exbind_error, expure] at h
          | cons t ts =>
            simp [parseSchemaRow, pyGet, Value.truthy, hs, hh, exbind_ok, expure] at h
            simp [specColumn, hs, hh, h.symm]

theorem parseSchemaRows_eq_spec :
    ∀ (rows : List (List Value)) (cols : List Column),
      parseSchemaRows rows = .ok cols → cols = specColumns rows
  | [], cols, h => by
    simp [parseSchemaRows] at h
    simp [specColumns, h.symm]
  | r :: rs, cols, h => by
    rw [parseSchemaRows] at h
    cases hr : parseSchemaRow r with
    | error e => rw [hr, exbind_error] at h; exact absurd h (by simp)
    | ok oc =>
      rw [hr, exbind_ok] at h
      cases hrs : parseSchemaRows rs with
      | error e => rw [hrs, exbind_error] at h; exact absurd h (by simp)
      | ok cs =>
        rw [hrs, exbind_ok] at h
        have hcs := parseSchemaRows_eq_spec rs cs hrs
        have hoc := parseSchemaRow_eq_spec r oc hr
        cases oc with
        | none =>
          simp at h
          simp [specColumns, List.filterMap_cons, ← hoc, h.symm]
          simpa [specColumns] using hcs
        | some col =>
          simp at h
          simp [specColumns, List.filterMap_cons, ← hoc, h.symm]
          simpa [specColumns] using hcs

theorem specColumn_name_not_empty (row : List Value) (col : Column)
    (h : specColumn row = some col) :
    col.name ≠ "" ∧ pyStartsWith col.name "#" = false := by
  unfold specColumn at h
  split at h
  · split at h
    · rename_i hcond
      simp at hcond h
      obtain ⟨h1, h2⟩ := hcond
      rw [← h]
      exact ⟨h1, h2⟩
    · exact absurd h (by simp)
  · exact absurd h (by simp)

theorem parseSchemaRow_falsy (row : List Value) (v : Value)
    (h0 : row[0]? = some v) (hf : v.truthy = false) :
    parseSchemaRow row = .ok none := by
  rw [parseSchemaRow]
  simp [pyGet, h0, exbind_ok, hf, expure]

theorem parseSchemaRows_drop_falsy (row : List Value) (rows : List (List Value))
    (v : Value) (h0 : row[0]? = some v) (hf : v.truthy = false) :
    parseSchemaRows (row :: rows) = parseSchemaRows rows := by
  rw [parseSchemaRows, parseSchemaRow_falsy row v h0 hf, exbind_ok]
  cases hrs : parseSchemaRows rows with
  | error e => rw [exbind_error]
  | ok cs => rw [exbind_ok]

theorem buildRows_length :
    ∀ (cols : List String) (rs : List (List Value))
      (ds : List (List (String × Value))),
      buildRows cols rs = .ok ds → ds.length = rs.length
  | _, [], ds, h => by
    simp [buildRows] at h
    simp [h.symm]
  | cols, r :: rs, ds, h => by
    rw [buildRows] at h
    cases hd : buildRowDict cols r with
    | error e => rw [hd, exbind_error] at h; exact absurd h (by simp)
    | ok d =>
      rw [hd, exbind_ok] at h
      cases hds : buildRows cols rs with
      | error e => rw [hds, exbind_error] at h; exact absurd h (by simp)
      | ok ds2 =>
        rw [hds, exbind_ok] at h
        simp at h
        have := buildRows_length cols rs ds2 hds
        simp [h.symm, this]

theorem get_table_schema_ok_inv (cfg : Config) (eng : Engine) (table : String)
    (catOpt schOpt : Option String) (c s t f : String) (cols : List Column)
    (h : (get_table_schema cfg eng table catOpt schOpt).1 = .ok c s t f cols) :
    ∃ res : EngineResult,
      eng.run (describeQuery c s t) = .ok res ∧
      parseSchemaRows res.rows = .ok cols ∧
      c = resolvedCat cfg catOpt ∧ s = resolvedSch cfg schOpt ∧
      t = table ∧ f = fullTableName c s t := by
  unfold get_table_schema at h
  split at h
  · simp at h
  · split at h
    · simp at h
    · rename_i hconn
      split at h
      · simp at h
      · rename_i res hrun
        split at h
        · simp at h
        · rename_i cs hparse
          simp at h
          obtain ⟨h1, h2, h3, h4, h5⟩ := h
          subst h1 h2 h3 h4 h5
          exact ⟨res, hrun, hparse, rfl, rfl, rfl, rfl⟩

theorem execute_sql_query_ok_inv (cfg : Config) (eng : Engine) (q : String)
    (N : Nat) (q' : String) (cols : List String)
    (rows : List (List (String × Value))) (cnt : Nat) (tr : Bool)
    (h : (execute_sql_query cfg eng q N).1 = .ok q' cols rows cnt tr) :
    ∃ res : EngineResult,
      eng.run q = .ok res ∧ q' = q ∧ cols = pyColumns res.description ∧
      buildRows cols (res.rows.take N) = .ok rows ∧
      cnt = rows.length ∧ tr = decide (N ≤ rows.length) := by
  unfold execute_sql_query at h
  split at h
  · simp at h
  · rename_i hconn
    split at h
    · simp at h
    · rename_i res hrun
      split at h
      · simp at h
      · rename_i rws hbuild
        simp at h
        obtain ⟨h1, h2, h3, h4, h5⟩ := h
        subst h1 h2 h3 h4 h5
        exact ⟨res, hrun, rfl, rfl, hbuild, rfl, rfl⟩

/-- C1: every entry point (`get_table_schema`, `execute_sql_query`,
`list_tables`) returns exactly one of a success mapping or an error mapping
carrying an `error` string, for every configuration, engine behaviour and
input; no exception escapes the entry point's boundary. -/
theorem c1_entry_points_return_value_never_raise :
    ∀ (cfg : Config) (eng : Engine) (table q : String)
      (catalog schema : Option String) (maxRows : Nat),
      (((get_table_schema cfg eng table catalog schema).1.isOk = true ∧
        (get_table_schema cfg eng table catalog schema).1.errorMsg = none) ∨
       ((get_table_schema cfg eng table catalog schema).1.isOk = false ∧
        ∃ m, (get_table_schema cfg eng table catalog schema).1.errorMsg = some m)) ∧
      (((execute_sql_query cfg eng q maxRows).1.isOk = true ∧
        (execute_sql_query cfg eng q maxRows).1.errorMsg = none) ∨
       ((execute_sql_query cfg eng q maxRows).1.isOk = false ∧
        ∃ m, (execute_sql_query cfg eng q maxRows).1.errorMsg = some m)) ∧
      (((list_tables cfg eng catalog schema).1.isOk = true ∧
        (list_tables cfg eng catalog schema).1.errorMsg = none) ∨
       ((list_tables cfg eng catalog schema).1.isOk = false ∧
        ∃ m, (list_tables cfg eng catalog schema).1.errorMsg = some m)) := by
  intro cfg eng table q catalog schema maxRows
  refine ⟨?_, ?_, ?_⟩
  · cases h : (get_table_schema cfg eng table catalog schema).1 <;>
      simp [SchemaResult.isOk, SchemaResult.errorMsg]
  · cases h : (execute_sql_query cfg eng q maxRows).1 <;>
      simp [QueryResult.isOk, QueryResult.errorMsg]
  · cases h : (list_tables cfg eng catalog schema).1 <;>
      simp [ListTablesResult.isOk, ListTablesResult.errorMsg]

/-- C2: a successful `execute_sql_query(q, max_rows=N)` returns at most `N`
rows (`fetchmany` draws at most `N` from the engine), `row_count` is the
returned row count, and `truncated` is true exactly when that count
equals `N`. -/
theorem c2_execute_rows_capped_truncated_iff_full (cfg : Config) (eng : Engine)
    (q : String) (N : Nat) (q' : String) (cols : List String)
    (rows : List (List (String × Value))) (cnt : Nat) (tr : Bool)
    (h : (execute_sql_query cfg eng q N).1 = .ok q' cols rows cnt tr) :
    rows.length ≤ N ∧ cnt = rows.length ∧ (tr = true ↔ cnt = N) := by
  obtain ⟨res, _, _, _, hbuild, hcnt, htr⟩ :=
    execute_sql_query_ok_inv cfg eng q N q' cols rows cnt tr h
  have hlen : rows.length = (res.rows.take N).length :=
    buildRows_length _ _ _ hbuild
  have hle : rows.length ≤ N := by
    rw [hlen, List.length_take]; exact Nat.min_le_left _ _
  subst hcnt htr
  refine ⟨hle, rfl, ?_⟩
  simp only [decide_eq_true_eq]
  omega

/-- C2 witness: the spec scenario, a three-row result under cap 2. -/
theorem c2_witness :
    ([[("a", Value.int 1)], [("a", Value.int 2)]] :
      List (List (String × Value))).length ≤ 2 ∧
    2 = ([[("a", Value.int 1)], [("a", Value.int 2)]] :
      List (List (String × Value))).length ∧
    (true = true ↔ 2 = 2) :=
  c2_execute_rows_capped_truncated_iff_full cfgFull engRows3 "SELECT 1" 2
    "SELECT 1" ["a"] [[("a", Value.int 1)], [("a", Value.int 2)]] 2 true
    (by decide)

/-- C3 counterexample: a `DESCRIBE TABLE` result row whose first field is the
empty string does not start with `#`, yet `get_table_schema` excludes it from
`columns`, contradicting "includes each remaining row". -/
theorem c3_empty_name_row_counterexample :
    (get_table_schema cfgFull engEmptyName "t" (some "c") (some "s")).1 =
      .ok "c" "s" "t" "c.s.t" [] ∧
    ([] : List Column) ≠ [⟨"", Value.str "int", Value.null⟩] := by
  decide

/-- C3 (amended): a successful `get_table_schema` returns exactly the engine
rows whose first field is a nonempty string not starting with `#`, mapped to
`{name, type, comment}` in engine order (rows with a falsy first field are
also excluded). -/
theorem c3_columns_filter_amended (cfg : Config) (eng : Engine)
    (table : String) (catOpt schOpt : Option String) (c s t f : String)
    (cols : List Column) (d : Option (List String)) (rows : List (List Value))
    (hrun : eng.run (describeQuery c s t) = .ok ⟨d, rows⟩)
    (hok : (get_table_schema cfg eng table catOpt schOpt).1 = .ok c s t f cols) :
    cols = specColumns rows := by
  obtain ⟨res, hrun2, hparse, _, _, _, _⟩ :=
    get_table_schema_ok_inv cfg eng table catOpt schOpt c s t f cols hok
  rw [hrun] at hrun2
  injection hrun2 with hres
  rw [← hres] at hparse
  exact parseSchemaRows_eq_spec rows cols hparse

/-- C3 witness: the spec scenario `describeTable("users", "main", "default")`
with the three scenario rows yields exactly the two real columns. -/
theorem c3_columns_filter_amended_witness :
    [(⟨"id", Value.str "bigint", Value.null⟩ : Column),
     ⟨"name", Value.str "string", Value.null⟩] =
      specColumns
        [[Value.str "id", Value.str "bigint", Value.null],
         [Value.str "name", Value.str "string", Value.null],
         [Value.str "# Partitioning", Value.str "", Value.str ""]] :=
  c3_columns_filter_amended cfgFull engSchema "users" (some "main")
    (some "default") "main" "default" "users" "main.default.users"
    [⟨"id", Value.str "bigint", Value.null⟩,
     ⟨"name", Value.str "string", Value.null⟩]
    none
    [[Value.str "id", Value.str "bigint", Value.null],
     [Value.str "name", Value.str "string", Value.null],
     [Value.str "# Partitioning", Value.str "", Value.str ""]]
    (by rfl) (by decide)

/-- C4: when the resolved catalog or schema is still missing, both
`get_table_schema` and `list_tables` return the missing-parameters error
mapping with an empty engine trace (no connection, no query);
`get_table_schema` echoes the table and `list_tables` echoes nothing. -/
theorem c4_missing_catalog_schema_errors_without_engine_contact
    (cfg : Config) (eng : Engine) (table : String)
    (catalog schema : Option String)
    (h : envTruthy (pyOr catalog cfg.catalog) = false ∨
         envTruthy (pyOr schema cfg.schema) = false) :
    get_table_schema cfg eng table catalog schema =
      (.errMissing catalogSchemaMissingMsg table, []) ∧
    list_tables cfg eng catalog schema =
      (.errMissing catalogSchemaMissingMsg, []) := by
  unfold get_table_schema list_tables
  rcases h with h | h <;> simp [h]

/-- C4 witness: no catalog argument and no configured default. -/
theorem c4_witness :
    get_table_schema cfgNoCat engUnused "users" none none =
      (.errMissing catalogSchemaMissingMsg "users", []) ∧
    list_tables cfgNoCat engUnused none none =
      (.errMissing catalogSchemaMissingMsg, []) :=
  c4_missing_catalog_schema_errors_without_engine_contact cfgNoCat engUnused
    "users" none none (Or.inl (by decide))

/-- C5: with host, token, or HTTP path unset (falsy), the connection factory
raises (`Except.error`, not a data result) the configuration message naming
the required variables, with an empty engine trace, so before any query; the
workspace client likewise raises when host or token is unset. -/
theorem c5_connection_factory_raises_on_missing_config
    (cfg : Config) (eng : Engine)
    (h : envTruthy cfg.host = false ∨ envTruthy cfg.token = false ∨
         envTruthy cfg.httpPath = false) :
    get_databricks_connection cfg eng = (.error connMissingMsg, []) ∧
    ((envTruthy cfg.host = false ∨ envTruthy cfg.token = false) →
      get_workspace_client cfg = .error wsMissingMsg) := by
  constructor
  · unfold get_databricks_connection
    rcases h with h | h | h <;> simp [h]
  · intro h2
    unfold get_workspace_client
    rcases h2 with h2 | h2 <;> simp [h2]

/-- C5 witness: token unset. -/
theorem c5_witness :
    get_databricks_connection cfgNoToken engUnused = (.error connMissingMsg, []) ∧
    get_workspace_client cfgNoToken = .error wsMissingMsg :=
  ⟨(c5_connection_factory_raises_on_missing_config cfgNoToken engUnused
      (Or.inr (Or.inl (by decide)))).1,
   (c5_connection_factory_raises_on_missing_config cfgNoToken engUnused
      (Or.inr (Or.inl (by decide)))).2 (Or.inr (by decide))⟩

/-- C6 (code bug): on a fault after the connection is opened, the code has no
`finally` block, so the error mapping is returned while the trace shows the
connection was opened and executed on but never closed — for both
`get_table_schema` and `execute_sql_query`. -/
theorem c6_connection_not_closed_on_fault_path :
    get_table_schema cfgFull engExecFails "t" (some "c") (some "s") =
      (.errCaught "PERMISSION_DENIED" "c" "s" "t",
       [.connect "x.com", .execute "DESCRIBE TABLE c.s.t"]) ∧
    Event.closeConn ∉
      (get_table_schema cfgFull engExecFails "t" (some "c") (some "s")).2 ∧
    Event.closeCursor ∉
      (get_table_schema cfgFull engExecFails "t" (some "c") (some "s")).2 ∧
    execute_sql_query cfgFull engExecFails "SELECT 1" 10 =
      (.err "PERMISSION_DENIED" "SELECT 1",
       [.connect "x.com", .execute "SELECT 1"]) ∧
    Event.closeConn ∉ (execute_sql_query cfgFull engExecFails "SELECT 1" 10).2 := by
  decide

/-- C7 counterexample: with `max_rows = 0` a successful query returning zero
rows reports `truncated = true`, not `false` as the claim states. -/
theorem c7_zero_cap_counterexample :
    (execute_sql_query cfgFull engEmpty "SELECT 1" 0).1 =
      .ok "SELECT 1" ["a"] [] 0 true ∧
    (execute_sql_query cfgFull engEmpty "SELECT 1" 0).1 ≠
      .ok "SELECT 1" ["a"] [] 0 false := by
  decide

/-- C7 (amended): for `max_rows ≥ 1`, a successful `execute_sql_query` over
an engine result with zero rows yields `columns` taken from the result-set
metadata (empty exactly when there is no metadata or it is empty),
`rows = []`, `row_count = 0` and `truncated = false`. -/
theorem c7_zero_rows_result_amended (cfg : Config) (eng : Engine) (q : String)
    (N : Nat) (d : Option (List String))
    (hH : envTruthy cfg.host = true) (hT : envTruthy cfg.token = true)
    (hP : envTruthy cfg.httpPath = true) (hc : eng.connect = .ok ())
    (hrun : eng.run q = .ok ⟨d, []⟩) (hN : 1 ≤ N) :
    (execute_sql_query cfg eng q N).1 = .ok q (pyColumns d) [] 0 false ∧
    (pyColumns d = [] ↔ d = none ∨ d = some []) := by
  constructor
  · unfold execute_sql_query get_databricks_connection
    rw [hH, hT, hP, hc, hrun]
    simp [buildRows, show ¬(N ≤ 0) by omega]
  · cases d with
    | none => simp [pyColumns]
    | some ds => cases ds <;> simp [pyColumns]

/-- C7 witness: the default cap 1000 over a zero-row result. -/
theorem c7_witness :
    (execute_sql_query cfgFull engEmpty "SELECT 1" 1000).1 =
      .ok "SELECT 1" (pyColumns (some ["a"])) [] 0 false ∧
    (pyColumns (some ["a"]) = [] ↔ some ["a"] = none ∨ some ["a"] = some []) :=
  c7_zero_rows_result_amended cfgFull engEmpty "SELECT 1" 1000 (some ["a"])
    (by decide) (by decide) (by decide) rfl rfl (by decide)

/-- C8 counterexample: for host `"ahttps://b"`, which has no leading
`https://`, the claim says the hostname is passed unchanged; the code's
`str.replace` removes the interior occurrence and passes `"ab"`. -/
theorem c8_leading_strip_counterexample :
    get_databricks_connection cfgHostMid engUnused =
      (.ok "ab", [.connect "ab"]) ∧
    specStripLeadingHttps "ahttps://b" = "ahttps://b" ∧
    ("ab" : String) ≠ "ahttps://b" := by
  decide

/-- C8 (amended): with full configuration and a live engine, the hostname
passed to `sql.connect` is the configured host with every occurrence of
`https://` removed (Python `str.replace` semantics), which in particular
removes a leading occurrence. -/
theorem c8_hostname_replace_all_amended (cfg : Config) (eng : Engine)
    (hH : envTruthy cfg.host = true) (hT : envTruthy cfg.token = true)
    (hP : envTruthy cfg.httpPath = true) (hc : eng.connect = .ok ()) :
    get_databricks_connection cfg eng =
      (.ok (pyReplaceHttps (cfg.host.getD "")),
       [.connect (pyReplaceHttps (cfg.host.getD ""))]) ∧
    ∀ rest : String, pyReplaceHttps ("https://" ++ rest) = pyReplaceHttps rest := by
  constructor
  · unfold get_databricks_connection
    simp [hH, hT, hP, hc]
  · intro rest
    rfl

/-- C8 witness: the configured host `https://x.com` is passed as `x.com`. -/
theorem c8_witness :
    get_databricks_connection cfgFull engRows3 =
      (.ok (pyReplaceHttps "https://x.com"),
       [.connect (pyReplaceHttps "https://x.com")]) :=
  (c8_hostname_replace_all_amended cfgFull engRows3
    (by decide) (by decide) (by decide) rfl).1

/-- C9 (implicit): the schema parser drops every row whose first field is
falsy (empty string, `None`, `0`, `False`), silently and without error, so no
returned column of a successful `get_table_schema` has an empty name. -/
theorem c9_falsy_name_rows_dropped :
    (∀ (cfg : Config) (eng : Engine) (table : String)
       (catOpt schOpt : Option String) (c s t f : String) (cols : List Column),
       (get_table_schema cfg eng table catOpt schOpt).1 = .ok c s t f cols →
       ∀ col ∈ cols, col.name ≠ "") ∧
    (∀ (row : List Value) (rows : List (List Value)) (v : Value),
       row[0]? = some v → v.truthy = false →
       parseSchemaRows (row :: rows) = parseSchemaRows rows) := by
  constructor
  · intro cfg eng table catOpt schOpt c s t f cols hok col hcol
    obtain ⟨res, _, hparse, _⟩ :=
      get_table_schema_ok_inv cfg eng table catOpt schOpt c s t f cols hok
    have hspec := parseSchemaRows_eq_spec res.rows cols hparse
    rw [hspec] at hcol
    unfold specColumns at hcol
    obtain ⟨row, _, hrow⟩ := List.mem_filterMap.mp hcol
    exact (specColumn_name_not_empty row col hrow).1
  · exact parseSchemaRows_drop_falsy

/-- C9 witness: a successful scenario run has only nonempty column names, and
a row with an empty-string name is dropped without error. -/
theorem c9_witness :
    (∀ col ∈ [(⟨"id", Value.str "bigint", Value.null⟩ : Column),
              ⟨"name", Value.str "string", Value.null⟩], col.name ≠ "") ∧
    parseSchemaRows [[Value.str "", Value.str "int", Value.null]] =
      parseSchemaRows [] :=
  ⟨c9_falsy_name_rows_dropped.1 cfgFull engSchema "users" (some "main")
     (some "default") "main" "default" "users" "main.default.users"
     [⟨"id", Value.str "bigint", Value.null⟩,
      ⟨"name", Value.str "string", Value.null⟩] (by decide),
   c9_falsy_name_rows_dropped.2 [Value.str "", Value.str "int", Value.null] []
     (Value.str "") rfl rfl⟩

/-- C10 (implicit): a successful `execute_sql_query` with `max_rows = 0`
returns no rows, `row_count = 0`, and `truncated = true`, since the
truncation test `len(rows) >= max_rows` holds vacuously at a zero cap. -/
theorem c10_zero_cap_truncated_true (cfg : Config) (eng : Engine)
    (q q' : String) (cols : List String)
    (rows : List (List (String × Value))) (cnt : Nat) (tr : Bool)
    (h : (execute_sql_query cfg eng q 0).1 = .ok q' cols rows cnt tr) :
    rows = [] ∧ cnt = 0 ∧ tr = true := by
  obtain ⟨res, _, _, _, hbuild, hcnt, htr⟩ :=
    execute_sql_query_ok_inv cfg eng q 0 q' cols rows cnt tr h
  rw [List.take_zero, buildRows] at hbuild
  simp at hbuild
  subst hcnt htr
  simp [← hbuild]

/-- C10 witness: cap 0 over a three-row result. -/
theorem c10_witness :
    ([] : List (List (String × Value))) = [] ∧ (0 : Nat) = 0 ∧ true = true :=
  c10_zero_cap_truncated_true cfgFull engRows3 "SELECT 1" "SELECT 1" ["a"]
    [] 0 true (by decide)
